import Mathlib

/-!
# Verification of the soma-location analysis pipeline

Shallow embedding of `soma_analyzer.py` (class `SomaAnalyzer`) from the
smartsheet-neuron-analysis repository, together with proofs settling the
frozen claims about it.

Modelling conventions:
* A pandas cell value is a `Value`: absent/NaN (`null`), a string, a Python
  boolean, or a number (modelled as `Int`; Smartsheet numeric cells).
* A `DataFrame` is a `Df`: a list of column labels and a list of rows, each
  row a list of cells positionally aligned with the labels.  Column labels
  are assumed unique (as produced by the sheet loader column map), so a
  pandas label lookup `df[c]` is the first index whose label equals `c`.
* `pd.Series.str.contains(pat, case=False, na=False)` after `.astype(str)`
  is modelled for literal (regex-metacharacter-free) patterns, which is what
  location tokens such as "VM", "PVT", "LC" are: case-insensitive substring
  containment.  Note `.astype(str)` renders NaN as the string "nan" before
  the match, so the `na=False` flag never sees a NaN.
* Logging side effects that the claims mention are modelled as explicit
  result fields (e.g. `FilterResult.hiveNotFound` records that the
  error-level "HIVE filter requested but no HIVE column found" log fired,
  `PlotArtifact.truncated` records the too-many-samples warning).
* Python exceptions (pandas `KeyError` on a missing column label,
  `ValueError` in the constructor) are modelled as `Except String`.
  File paths embed a wall-clock timestamp and are not modelled; a saved
  artifact is modelled by its content.
-/

namespace Soma

/-- Decidable equality of `Except` results, for evaluating the embedded
fallible operations on concrete inputs. -/
instance {ε α : Type} [DecidableEq ε] [DecidableEq α] :
    DecidableEq (Except ε α) := fun a b =>
  match a, b with
  | Except.error e, Except.error f =>
    if h : e = f then isTrue (by rw [h]) else isFalse (by simp [h])
  | Except.error _, Except.ok _ => isFalse (by simp)
  | Except.ok _, Except.error _ => isFalse (by simp)
  | Except.ok x, Except.ok y =>
    if h : x = y then isTrue (by rw [h]) else isFalse (by simp [h])

/-- A loosely-typed pandas cell value: NaN/None, string, boolean, or number
(numbers modelled as integers). -/
inductive Value where
  | null : Value
  | str (s : String) : Value
  | bool (b : Bool) : Value
  | int (n : Int) : Value
deriving DecidableEq, Repr

/-- A DataFrame: column labels plus rows of positionally aligned cells. -/
structure Df where
  cols : List String
  rows : List (List Value)
deriving DecidableEq, Repr

/-- Label lookup: index of the first column with the given label
(pandas `df[c]` for unique labels); `none` models a `KeyError`. -/
def colIdx? (df : Df) (c : String) : Option Nat :=
  df.cols.findIdx? (fun x => x = c)

/-- The cell of row `r` in column position `i` (`Value.null` out of range). -/
def cell (r : List Value) (i : Nat) : Value :=
  r.getD i Value.null

/-- `pandas.DataFrame.empty`: true when either axis has length 0. -/
def Df.isEmpty (df : Df) : Bool :=
  df.rows.isEmpty || df.cols.isEmpty

/-- `pd.DataFrame()`: the completely empty frame. -/
def Df.empty : Df := ⟨[], []⟩

/-- Python `v == True` as pandas evaluates it elementwise: boolean `True`
matches, and so does the number 1 (Python `1 == True`); strings and
NaN do not. -/
def pyIsTrue : Value → Bool
  | Value.bool b => b
  | Value.int n => n = 1
  | _ => false

/-- `Series.astype(str)` on one cell: NaN renders as the string "nan",
booleans as "True"/"False", numbers via `str`. -/
def pyStr : Value → String
  | Value.null => "nan"
  | Value.str s => s
  | Value.bool b => if b then "True" else "False"
  | Value.int n => toString n

/-- Does `pat` match `hay` starting at its head (elementwise equality)? -/
def matchAt : List Char → List Char → Bool
  | _, [] => true
  | [], _ :: _ => false
  | h :: hs, p :: ps => h = p && matchAt hs ps

/-- Substring test on char lists: does `pat` occur contiguously in `hay`? -/
def subChars (hay pat : List Char) : Bool :=
  match hay with
  | [] => matchAt [] pat
  | _ :: t => matchAt hay pat || subChars t pat

/-- Python `str.lower()` on the character list (ASCII case folding). -/
def lowerChars (cs : List Char) : List Char :=
  cs.map Char.toLower

/-- Case-insensitive containment of `pat` in `hay`
(`str.contains(pat, case=False)` for a literal pattern; Python `in` after
`.lower()`). -/
def strContainsCI (hay pat : String) : Bool :=
  subChars (lowerChars hay.data) (lowerChars pat.data)

/-- Python `str.strip()`: drop whitespace from both ends. -/
def trimChars (cs : List Char) : List Char :=
  ((cs.dropWhile Char.isWhitespace).reverse.dropWhile Char.isWhitespace).reverse

/-- Is the first character of the list a decimal digit? -/
def leadDigit : List Char → Bool
  | [] => false
  | d :: _ => d.isDigit

/-- The regex search for a dash followed by digits: scan left to right for the first `-`
immediately followed by a digit and return the maximal digit run after it. -/
def digitRunAfterDash : List Char → Option (List Char)
  | [] => none
  | c :: rest =>
    if c = '-' && leadDigit rest then some (rest.takeWhile Char.isDigit)
    else digitRunAfterDash rest

/-- The regex search for a digit run: the first maximal run of digits. -/
def firstDigitRun : List Char → Option (List Char)
  | [] => none
  | c :: rest =>
    if c.isDigit then some (c :: rest.takeWhile Char.isDigit)
    else firstDigitRun rest

/-- `SomaAnalyzer._extract_sample_id` on an actual string: digits after the
first dash-digit occurrence, else the first digit run, else the stripped
string. -/
def extractFromString (s : String) : String :=
  match digitRunAfterDash s.data with
  | some d => String.mk d
  | none =>
    match firstDigitRun s.data with
    | some d => String.mk d
    | none => String.mk (trimChars s.data)

/-- `SomaAnalyzer._extract_sample_id`: `None` for NaN and non-string values,
otherwise `extractFromString`. -/
def extractSampleId : Value → Option String
  | Value.str s => some (extractFromString s)
  | _ => none

/-- Does a column label contain "hive" case-insensitively
(the Python membership test of "hive" in the lowered label)? -/
def hiveName (c : String) : Bool :=
  subChars (lowerChars c.data) "hive".data

/-- `SomaAnalyzer._find_hive_column`: first column whose label contains
"hive" (case-insensitive); otherwise the first column of the original
table containing any value comparing equal to `True`; else `none`
(which the method accompanies with a warning log). -/
def findHiveIdx? (df : Df) : Option Nat :=
  match (List.range df.cols.length).find?
      (fun i => hiveName (df.cols.getD i "")) with
  | some i => some i
  | none =>
    (List.range df.cols.length).find?
      (fun i => df.rows.any (fun r => pyIsTrue (cell r i)))

/-- Result of `SomaAnalyzer._apply_soma_location_filter`: the filtered
table, plus whether the error-level "HIVE filter requested but no HIVE
column found" log fired (the distinguishable fails-closed signal). -/
structure FilterResult where
  table : Df
  hiveNotFound : Bool
deriving DecidableEq, Repr

/-- Row predicate of the location mask: either location column, rendered
with `astype(str)`, contains the token case-insensitively. -/
def locRowKeep (i j : Nat) (loc : String) (r : List Value) : Bool :=
  strContainsCI (pyStr (cell r i)) loc || strContainsCI (pyStr (cell r j)) loc

/-- The location phase of `_apply_soma_location_filter`: location "all"
keeps every row; otherwise keep rows where either `CCF Soma Compartment`
or `Manual Estimated Soma Compartment` contains the token (a missing
column label raises `KeyError`). -/
def locationStage (df : Df) (loc : String) : Except String Df :=
  if String.mk (lowerChars loc.data) = "all" then Except.ok df
  else
    match colIdx? df "CCF Soma Compartment" with
    | none => Except.error "KeyError: CCF Soma Compartment"
    | some i =>
      match colIdx? df "Manual Estimated Soma Compartment" with
      | none => Except.error "KeyError: Manual Estimated Soma Compartment"
      | some j =>
        Except.ok ⟨df.cols, df.rows.filter (locRowKeep i j loc)⟩

/-- `SomaAnalyzer._apply_soma_location_filter`: the location phase, then —
with the HIVE flag — keep rows whose HIVE-column value equals `True`, or
fail closed to the empty frame (with the error-level log recorded in
`hiveNotFound`) when no HIVE column exists. -/
def applySomaLocationFilter (df : Df) (loc : String) (hive : Bool) :
    Except String FilterResult :=
  match locationStage df loc with
  | Except.error e => Except.error e
  | Except.ok fdf =>
    if hive then
      match findHiveIdx? df with
      | some k =>
        Except.ok ⟨⟨fdf.cols, fdf.rows.filter (fun r => pyIsTrue (cell r k))⟩, false⟩
      | none => Except.ok ⟨Df.empty, true⟩
    else Except.ok ⟨fdf, false⟩

/-- The six canonical status strings (`utils.NEURON_STATUSES.values()`). -/
def canonicalStatuses : List Value :=
  [Value.str "Completed", Value.str "Pending Review", Value.str "Hold",
   Value.str "Untraceable", Value.str "In Progress", Value.str "Incomplete"]

/-- One row of the per-sample summary (`_create_summary_data` dict). -/
structure SummaryRow where
  sample_id : String
  genotype : Value
  completed : Nat
  pending_review : Nat
  hold : Nat
  untraceable : Nat
  in_progress : Nat
  incomplete : Nat
  other : Nat
  registration_status : Value
  total_neurons : Nat
  hive_flag : String
deriving DecidableEq, Repr

/-- Sum of the seven status-category counts of a summary row. -/
def sumCounts (w : SummaryRow) : Nat :=
  w.completed + w.pending_review + w.hold + w.untraceable +
    w.in_progress + w.incomplete + w.other

/-- The rows of the filtered table whose extracted Sample ID equals `sid`
(the rows whose Sample_ID column equals the sample id). -/
def groupRows (df : Df) (idI : Nat) (sid : String) : List (List Value) :=
  df.rows.filter (fun r => decide (extractSampleId (cell r idI) = some sid))

/-- The summary dict built for one sample group: first-row Genotype and
Registered? (or "Unknown" when the column is absent), per-status counts of
`Status 1` via `value_counts` (which drops NaN), "Other" tallying every
non-null status outside the canonical six, the group size, and the HIVE
flag. -/
def mkSummaryRow (df : Df) (stI : Nat) (hive : Bool) (sid : String)
    (g : List (List Value)) : SummaryRow :=
  let sts := g.map (fun r => cell r stI)
  { sample_id := sid
    genotype :=
      match colIdx? df "Genotype" with
      | some gI => cell (g.headD []) gI
      | none => Value.str "Unknown"
    completed := sts.countP (fun v => decide (v = Value.str "Completed"))
    pending_review := sts.countP (fun v => decide (v = Value.str "Pending Review"))
    hold := sts.countP (fun v => decide (v = Value.str "Hold"))
    untraceable := sts.countP (fun v => decide (v = Value.str "Untraceable"))
    in_progress := sts.countP (fun v => decide (v = Value.str "In Progress"))
    incomplete := sts.countP (fun v => decide (v = Value.str "Incomplete"))
    other := sts.countP
      (fun v => !(decide (v = Value.null)) && !(decide (v ∈ canonicalStatuses)))
    registration_status :=
      match colIdx? df "Registered?" with
      | some rI => cell (g.headD []) rI
      | none => Value.str "Unknown"
    total_neurons := g.length
    hive_flag := if hive then "Yes" else "No" }

/-- Worker for `firstSeen`: emit each value not seen before, in order. -/
def firstSeenAux (seen : List String) : List String → List String
  | [] => []
  | s :: rest =>
    if s ∈ seen then firstSeenAux seen rest
    else s :: firstSeenAux (s :: seen) rest

/-- Distinct values in order of first appearance (`pandas.Series.unique`). -/
def firstSeen (l : List String) : List String :=
  firstSeenAux [] l

/-- The loop body of `_create_summary_data`: one summary row per sample id,
in first-seen order; an empty group is skipped; touching `Status 1` on a
group raises `KeyError` when that column is absent. -/
def summarizeGroups (df : Df) (idI : Nat) (hive : Bool) :
    List String → Except String (List SummaryRow)
  | [] => Except.ok []
  | sid :: rest =>
    if (groupRows df idI sid).isEmpty then summarizeGroups df idI hive rest
    else
      match colIdx? df "Status 1" with
      | none => Except.error "KeyError: Status 1"
      | some stI =>
        match summarizeGroups df idI hive rest with
        | Except.error e => Except.error e
        | Except.ok tail =>
          Except.ok (mkSummaryRow df stI hive sid (groupRows df idI sid) :: tail)

/-- `SomaAnalyzer._create_summary_data`: extract a Sample ID per row
(raising `KeyError` when `ID` is absent), drop rows without one, and build
one summary row per distinct Sample ID in first-seen order. -/
def summarize (df : Df) (hive : Bool) : Except String (List SummaryRow) :=
  match colIdx? df "ID" with
  | none => Except.error "KeyError: ID"
  | some idI =>
    summarizeGroups df idI hive
      (firstSeen ((df.rows.map (fun r => extractSampleId (cell r idI))).filterMap
        (fun o => o)))

/-- `Config.MAX_SAMPLES_TO_DISPLAY` default (env `MAX_SAMPLES_DISPLAY`,
default "50"). -/
def MAX_SAMPLES_TO_DISPLAY : Nat := 50

/-- The observable content of a rendered stacked-bar chart: the sample ids
on the x axis (bar order) and whether the too-many-samples truncation
warning fired. -/
structure PlotArtifact where
  samples : List String
  truncated : Bool
deriving DecidableEq, Repr

/-- `SomaAnalyzer._create_stacked_bar_plot` data preparation: plot the
summary rows in order, truncated to the display cap with a warning when
there are more samples than the cap. -/
def stackedBarPlot (summary : List SummaryRow) : PlotArtifact :=
  if summary.length > MAX_SAMPLES_TO_DISPLAY then
    ⟨(summary.take MAX_SAMPLES_TO_DISPLAY).map (fun w => w.sample_id), true⟩
  else ⟨summary.map (fun w => w.sample_id), false⟩

/-- The triple returned by `analyze_soma_location`: the summary table, the
saved CSV content (`none` when no file was written), and the rendered plot
(`none` when no plot was produced). -/
structure AnalyzeResult where
  summary : List SummaryRow
  csv : Option (List SummaryRow)
  plot : Option PlotArtifact
deriving DecidableEq, Repr

/-- `SomaAnalyzer.analyze_soma_location`: filter, short-circuit to the
explicit no-data triple when the filtered frame is empty, then summarize,
save the full summary as CSV when requested, and render the plot when
requested; exceptions propagate. -/
def analyzeSomaLocation (df : Df) (loc : String)
    (saveCsv createPlots hive : Bool) : Except String AnalyzeResult :=
  match applySomaLocationFilter df loc hive with
  | Except.error e => Except.error e
  | Except.ok fr =>
    if fr.table.isEmpty then Except.ok ⟨[], none, none⟩
    else
      match summarize fr.table hive with
      | Except.error e => Except.error e
      | Except.ok summary =>
        Except.ok ⟨summary,
          if saveCsv && !summary.isEmpty then some summary else none,
          if createPlots && !summary.isEmpty then some (stackedBarPlot summary)
          else none⟩

/-- `SomaAnalyzer.__init__`: raises `ValueError` exactly when `df.empty`. -/
def somaAnalyzerInit (df : Df) : Except String Unit :=
  if df.isEmpty then Except.error "Input DataFrame cannot be empty"
  else Except.ok ()

/-- One aggregate row of `compare_soma_locations`. -/
structure CompareRow where
  soma_location : String
  total_samples : Nat
  total_neurons : Nat
  completed : Nat
  pending_review : Nat
  hold : Nat
  untraceable : Nat
  in_progress : Nat
  incomplete : Nat
  other : Nat
deriving DecidableEq, Repr

/-- The totals dict built for one location from its non-empty summary. -/
def aggRow (loc : String) (summary : List SummaryRow) : CompareRow :=
  { soma_location := loc
    total_samples := summary.length
    total_neurons := (summary.map (fun w => w.total_neurons)).sum
    completed := (summary.map (fun w => w.completed)).sum
    pending_review := (summary.map (fun w => w.pending_review)).sum
    hold := (summary.map (fun w => w.hold)).sum
    untraceable := (summary.map (fun w => w.untraceable)).sum
    in_progress := (summary.map (fun w => w.in_progress)).sum
    incomplete := (summary.map (fun w => w.incomplete)).sum
    other := (summary.map (fun w => w.other)).sum }

/-- `SomaAnalyzer.compare_soma_locations`: analyze each location with CSV
and plotting off; a location whose analysis raises is logged and skipped,
and a location with an empty summary contributes no row. -/
def compareSomaLocations (df : Df) (locs : List String) : List CompareRow :=
  locs.filterMap (fun loc =>
    match analyzeSomaLocation df loc false false false with
    | Except.error _ => none
    | Except.ok res =>
      if res.summary.isEmpty then none else some (aggRow loc res.summary))

/-! ## Helper lemmas: first-seen deduplication -/

theorem firstSeenAux_mem (l : List String) :
    ∀ (seen : List String) (a : String),
      a ∈ firstSeenAux seen l ↔ a ∈ l ∧ a ∉ seen := by
  induction l with
  | nil => intro seen a; simp [firstSeenAux]
  | cons s rest ih =>
    intro seen a
    by_cases hs : s ∈ seen
    · simp only [firstSeenAux, if_pos hs, ih, List.mem_cons]
      constructor
      · exact fun ⟨h1, h2⟩ => ⟨Or.inr h1, h2⟩
      · rintro ⟨h1 | h1, h2⟩
        · exact absurd (h1 ▸ hs) h2
        · exact ⟨h1, h2⟩
    · simp only [firstSeenAux, if_neg hs, List.mem_cons, ih]
      constructor
      · rintro (rfl | ⟨h1, h2⟩)
        · exact ⟨Or.inl rfl, hs⟩
        · exact ⟨Or.inr h1, fun hn => h2 (Or.inr hn)⟩
      · rintro ⟨rfl | h1, h2⟩
        · exact Or.inl rfl
        · by_cases has : a = s
          · exact Or.inl has
          · exact Or.inr ⟨h1, fun h => h.elim has h2⟩

theorem firstSeenAux_nodup (l : List String) :
    ∀ seen : List String, (firstSeenAux seen l).Nodup := by
  induction l with
  | nil => intro seen; simp [firstSeenAux]
  | cons s rest ih =>
    intro seen
    by_cases hs : s ∈ seen
    · simpa [firstSeenAux, if_pos hs] using ih seen
    · simp only [firstSeenAux, if_neg hs, List.nodup_cons]
      refine ⟨fun hmem => ?_, ih _⟩
      exact ((firstSeenAux_mem rest (s :: seen) s).mp hmem).2 (List.mem_cons_self _ _)

theorem mem_firstSeen (l : List String) (a : String) :
    a ∈ firstSeen l ↔ a ∈ l := by
  simp [firstSeen, firstSeenAux_mem]

theorem nodup_firstSeen (l : List String) : (firstSeen l).Nodup :=
  firstSeenAux_nodup l []

/-! ## Helper lemmas: counting by groups -/

theorem sum_map_add {α : Type} (l : List α) (f g : α → Nat) :
    (l.map (fun x => f x + g x)).sum = (l.map f).sum + (l.map g).sum := by
  induction l with
  | nil => simp
  | cons x xs ih => simp [ih]; omega

theorem sum_map_indicator_zero (S : List String) (a : String) (h : a ∉ S) :
    (S.map (fun s => if a = s then 1 else 0)).sum = 0 := by
  induction S with
  | nil => simp
  | cons s S ih =>
    simp only [List.mem_cons, not_or] at h
    simp [h.1, ih h.2]

theorem sum_map_indicator_one (S : List String) (a : String) (hnd : S.Nodup)
    (ha : a ∈ S) : (S.map (fun s => if a = s then 1 else 0)).sum = 1 := by
  induction S with
  | nil => cases ha
  | cons s S ih =>
    rw [List.nodup_cons] at hnd
    rcases List.mem_cons.mp ha with rfl | ha'
    · simp [sum_map_indicator_zero S a hnd.1]
    · have hne : a ≠ s := fun h => hnd.1 (h ▸ ha')
      simp [hne, ih hnd.2 ha']

/-- Counting rows split across the distinct values of a derived key: for a
duplicate-free key list `S` covering every key appearing in `rows`, the
per-key counts add up to the count of rows with any key at all. -/
theorem sum_countP_groups (rows : List (List Value))
    (f : List Value → Option String) (P : List Value → Bool)
    (S : List String) (hnd : S.Nodup)
    (hcov : ∀ r ∈ rows, ∀ s, f r = some s → s ∈ S) :
    (S.map (fun s => rows.countP (fun r => decide (f r = some s) && P r))).sum
      = rows.countP (fun r => (f r).isSome && P r) := by
  induction rows with
  | nil => simp
  | cons r rest ih =>
    have hcov' : ∀ r' ∈ rest, ∀ s, f r' = some s → s ∈ S :=
      fun r' hr' => hcov r' (List.mem_cons_of_mem _ hr')
    simp only [List.countP_cons]
    rw [sum_map_add S
        (fun s => rest.countP (fun x => decide (f x = some s) && P x))
        (fun s => if (decide (f r = some s) && P r) = true then 1 else 0),
      ih hcov']
    congr 1
    cases hf : f r with
    | none => simp
    | some s0 =>
      cases hP : P r with
      | false => simp [hP]
      | true =>
        have hs0 : s0 ∈ S := hcov r (List.mem_cons_self _ _) s0 hf
        simp only [hP, Bool.and_true, Option.isSome_some, if_pos rfl,
          Option.some.injEq]
        rw [show (fun s => if (decide (s0 = s)) = true then 1 else 0)
            = fun s => if s0 = s then 1 else 0 by
          funext s; by_cases h : s0 = s <;> simp [h]]
        exact sum_map_indicator_one S s0 hnd hs0

/-! ## Helper lemmas: the status tally partitions the non-null statuses -/

/-- Pointwise: each cell value hits exactly one of the seven status buckets
when its status is non-null, and none when it is null. -/
theorem status_indicator (v : Value) :
    ((if decide (v = Value.str "Completed") = true then 1 else 0) +
     (if decide (v = Value.str "Pending Review") = true then 1 else 0) +
     (if decide (v = Value.str "Hold") = true then 1 else 0) +
     (if decide (v = Value.str "Untraceable") = true then 1 else 0) +
     (if decide (v = Value.str "In Progress") = true then 1 else 0) +
     (if decide (v = Value.str "Incomplete") = true then 1 else 0) +
     (if (!(decide (v = Value.null)) && !(decide (v ∈ canonicalStatuses))) = true
        then 1 else 0) : Nat)
    = if (!(decide (v = Value.null))) = true then 1 else 0 := by
  cases v with
  | null => rfl
  | bool b => rfl
  | int n => rfl
  | str s =>
    simp only [decide_eq_true_eq, canonicalStatuses, Value.str.injEq,
      List.mem_cons, List.not_mem_nil, or_false, Bool.and_eq_true,
      Bool.not_eq_true', decide_eq_false_iff_not]
    by_cases h1 : s = "Completed"
    · simp [h1]
    by_cases h2 : s = "Pending Review"
    · simp [h1, h2]
    by_cases h3 : s = "Hold"
    · simp [h1, h2, h3]
    by_cases h4 : s = "Untraceable"
    · simp [h1, h2, h3, h4]
    by_cases h5 : s = "In Progress"
    · simp [h1, h2, h3, h4, h5]
    by_cases h6 : s = "Incomplete"
    · simp [h1, h2, h3, h4, h5, h6]
    simp [h1, h2, h3, h4, h5, h6]

/-- The six canonical counts plus the catch-all "Other" count add up to the
number of non-null statuses in the list. -/
theorem countP_status_partition (sts : List Value) :
    sts.countP (fun v => decide (v = Value.str "Completed")) +
    sts.countP (fun v => decide (v = Value.str "Pending Review")) +
    sts.countP (fun v => decide (v = Value.str "Hold")) +
    sts.countP (fun v => decide (v = Value.str "Untraceable")) +
    sts.countP (fun v => decide (v = Value.str "In Progress")) +
    sts.countP (fun v => decide (v = Value.str "Incomplete")) +
    sts.countP (fun v => !(decide (v = Value.null)) &&
      !(decide (v ∈ canonicalStatuses)))
    = sts.countP (fun v => !(decide (v = Value.null))) := by
  induction sts with
  | nil => simp
  | cons v rest ih =>
    simp only [List.countP_cons]
    have h := status_indicator v
    omega

/-! ## Helper lemmas: shape of the produced summary -/

/-- When the `Status 1` column exists and every listed sample id has a
non-empty group, the summary loop succeeds and produces exactly one row per
sample id, in order. -/
theorem summarizeGroups_eq_map (df : Df) (idI : Nat) (hive : Bool)
    (stI : Nat) (hst : colIdx? df "Status 1" = some stI) :
    ∀ sids : List String,
      (∀ sid ∈ sids, (groupRows df idI sid).isEmpty = false) →
      summarizeGroups df idI hive sids =
        Except.ok (sids.map (fun sid =>
          mkSummaryRow df stI hive sid (groupRows df idI sid))) := by
  intro sids
  induction sids with
  | nil => intro _; rfl
  | cons sid rest ih =>
    intro hne
    have h1 : (groupRows df idI sid).isEmpty = false :=
      hne sid (List.mem_cons_self _ _)
    have h2 := ih (fun s hs => hne s (List.mem_cons_of_mem _ hs))
    simp only [summarizeGroups, h1, hst, h2, Bool.false_eq_true, if_false,
      List.map_cons]

/-- The sample ids fed to the summary loop. -/
def sampleIds (df : Df) (idI : Nat) : List String :=
  firstSeen ((df.rows.map (fun r => extractSampleId (cell r idI))).filterMap
    (fun o => o))

/-- Every first-seen sample id has at least one matching row. -/
theorem groupRows_nonempty (df : Df) (idI : Nat) (sid : String)
    (h : sid ∈ sampleIds df idI) : (groupRows df idI sid).isEmpty = false := by
  rw [sampleIds, mem_firstSeen] at h
  rw [List.mem_filterMap] at h
  obtain ⟨o, ho, rfl⟩ := h
  rw [List.mem_map] at ho
  obtain ⟨r, hr, hre⟩ := ho
  have hmem : r ∈ groupRows df idI sid := by
    rw [groupRows, List.mem_filter]
    exact ⟨hr, by simp [hre]⟩
  cases hg : (groupRows df idI sid) with
  | nil => rw [hg] at hmem; cases hmem
  | cons x xs => rfl

/-- `summarize` in terms of the per-sample map, given the two column
labels it touches. -/
theorem summarize_eq_map (df : Df) (hive : Bool) (idI stI : Nat)
    (hid : colIdx? df "ID" = some idI)
    (hst : colIdx? df "Status 1" = some stI) :
    summarize df hive = Except.ok ((sampleIds df idI).map (fun sid =>
      mkSummaryRow df stI hive sid (groupRows df idI sid))) := by
  rw [summarize, hid]
  exact summarizeGroups_eq_map df idI hive stI hst (sampleIds df idI)
    (groupRows_nonempty df idI)

/-- The seven counts of a produced summary row add up to the number of rows
of its group whose `Status 1` cell is non-null. -/
theorem sumCounts_mkSummaryRow (df : Df) (stI : Nat) (hive : Bool)
    (sid : String) (g : List (List Value)) :
    sumCounts (mkSummaryRow df stI hive sid g) =
      g.countP (fun r => !(decide (cell r stI = Value.null))) := by
  have h := countP_status_partition (g.map (fun r => cell r stI))
  simp only [List.countP_map] at h
  simpa [sumCounts, mkSummaryRow, Function.comp] using h

theorem mkSummaryRow_sample_id (df : Df) (stI : Nat) (hive : Bool)
    (sid : String) (g : List (List Value)) :
    (mkSummaryRow df stI hive sid g).sample_id = sid := rfl

theorem mkSummaryRow_total_neurons (df : Df) (stI : Nat) (hive : Bool)
    (sid : String) (g : List (List Value)) :
    (mkSummaryRow df stI hive sid g).total_neurons = g.length := rfl

/-! ## Claim C2 -/

/-- Claim C2, amended.  For every table passed to summarization, each
emitted Summary Row has its seven status-category counts summing to the
number of rows of that sample whose `Status 1` is non-null (while
`Total_Neurons` counts all rows of the sample, so the seven counts fall
short of `Total_Neurons` by the null-status rows); summing over all
samples, the status counts total the row count minus the rows with no
Sample ID and minus the rows with a null `Status 1`, and `Total_Neurons`
totals the row count minus the rows with no Sample ID. -/
theorem summary_status_counts (df : Df) (hive : Bool)
    (srows : List SummaryRow) (idI stI : Nat)
    (hid : colIdx? df "ID" = some idI)
    (hst : colIdx? df "Status 1" = some stI)
    (hok : summarize df hive = Except.ok srows) :
    (∀ w ∈ srows,
       sumCounts w = (groupRows df idI w.sample_id).countP
         (fun r => !(decide (cell r stI = Value.null)))
       ∧ w.total_neurons = (groupRows df idI w.sample_id).length)
    ∧ (srows.map sumCounts).sum
        = df.rows.countP (fun r =>
            (extractSampleId (cell r idI)).isSome &&
            !(decide (cell r stI = Value.null)))
    ∧ (srows.map (fun w => w.total_neurons)).sum
        = df.rows.countP (fun r => (extractSampleId (cell r idI)).isSome) := by
  rw [summarize_eq_map df hive idI stI hid hst, Except.ok.injEq] at hok
  subst hok
  have hcov : ∀ r ∈ df.rows, ∀ s,
      (fun r => extractSampleId (cell r idI)) r = some s →
      s ∈ sampleIds df idI := by
    intro r hr s hs
    rw [sampleIds, mem_firstSeen, List.mem_filterMap]
    exact ⟨some s, List.mem_map.mpr ⟨r, hr, hs⟩, rfl⟩
  have hgroup : ∀ sid, (groupRows df idI sid).countP
      (fun r => !(decide (cell r stI = Value.null)))
      = df.rows.countP (fun r =>
          decide (extractSampleId (cell r idI) = some sid) &&
          !(decide (cell r stI = Value.null))) := by
    intro sid
    rw [groupRows, List.countP_filter]
    exact List.countP_congr (fun r _ => by
      constructor <;> (intro h; simpa [Bool.and_comm] using h))
  refine ⟨?_, ?_, ?_⟩
  · intro w hw
    obtain ⟨sid, _, rfl⟩ := List.mem_map.mp hw
    rw [mkSummaryRow_sample_id]
    exact ⟨sumCounts_mkSummaryRow df stI hive sid _, rfl⟩
  · rw [List.map_map]
    have : (sumCounts ∘ fun sid => mkSummaryRow df stI hive sid
        (groupRows df idI sid))
        = fun sid => df.rows.countP (fun r =>
            decide (extractSampleId (cell r idI) = some sid) &&
            !(decide (cell r stI = Value.null))) := by
      funext sid
      rw [Function.comp_apply, sumCounts_mkSummaryRow, hgroup]
    rw [this]
    exact sum_countP_groups df.rows _ _ (sampleIds df idI)
      (nodup_firstSeen _) hcov
  · rw [List.map_map]
    have : ((fun w => w.total_neurons) ∘ fun sid => mkSummaryRow df stI hive
        sid (groupRows df idI sid))
        = fun sid => df.rows.countP (fun r =>
            decide (extractSampleId (cell r idI) = some sid) && true) := by
      funext sid
      rw [Function.comp_apply, mkSummaryRow_total_neurons, groupRows,
        ← List.countP_eq_length_filter]
      exact List.countP_congr (fun r _ => by simp)
    rw [this, sum_countP_groups df.rows _ _ (sampleIds df idI)
      (nodup_firstSeen _) hcov]
    exact List.countP_congr (fun r _ => by simp)

/-- The table refuting claim C2 as stated: one row whose `Status 1` is
null. -/
def c2Df : Df := ⟨["ID", "Status 1"], [[Value.str "N1-7", Value.null]]⟩

/-- Claim C2 as stated is false: with one row whose `Status 1` is null,
the emitted Summary Row has all seven status counts 0 (because
`value_counts` drops NaN) yet `Total_Neurons` is 1, so the counts do not
sum to `Total_Neurons`. -/
theorem summary_status_counts_counterexample :
    summarize c2Df false = Except.ok
      [⟨"7", Value.str "Unknown", 0, 0, 0, 0, 0, 0, 0,
        Value.str "Unknown", 1, "No"⟩]
    ∧ sumCounts ⟨"7", Value.str "Unknown", 0, 0, 0, 0, 0, 0, 0,
        Value.str "Unknown", 1, "No"⟩ = 0
    ∧ (⟨"7", Value.str "Unknown", 0, 0, 0, 0, 0, 0, 0,
        Value.str "Unknown", 1, "No"⟩ : SummaryRow).total_neurons = 1 := by
  refine ⟨by decide, by decide, by decide⟩

/-- Concrete table exercising the amended C2: a sample with a null status,
a sample with a non-canonical status, and a row with an unparseable ID. -/
def c2WitnessDf : Df := ⟨["ID", "Status 1"],
  [[Value.str "N1-7", Value.str "Completed"],
   [Value.str "N1-7", Value.null],
   [Value.str "x-9", Value.str "Weird"],
   [Value.null, Value.str "Hold"]]⟩

/-- The summary rows `summarize` produces for `c2WitnessDf`. -/
def c2WitnessRows : List SummaryRow :=
  [⟨"7", Value.str "Unknown", 1, 0, 0, 0, 0, 0, 0,
     Value.str "Unknown", 2, "No"⟩,
   ⟨"9", Value.str "Unknown", 0, 0, 0, 0, 0, 0, 1,
     Value.str "Unknown", 1, "No"⟩]

/-- Witness for the amended C2 at a concrete table: 2 of the 4 rows have
both a Sample ID and a non-null status, and 3 of the 4 have a Sample ID. -/
theorem summary_status_counts_witness :
    summarize c2WitnessDf false = Except.ok c2WitnessRows
    ∧ (c2WitnessRows.map sumCounts).sum
        = c2WitnessDf.rows.countP (fun r =>
            (extractSampleId (cell r 0)).isSome &&
            !(decide (cell r 1 = Value.null)))
    ∧ (c2WitnessRows.map (fun w => w.total_neurons)).sum
        = c2WitnessDf.rows.countP (fun r =>
            (extractSampleId (cell r 0)).isSome)
    ∧ (c2WitnessRows.map sumCounts).sum = 2
    ∧ (c2WitnessRows.map (fun w => w.total_neurons)).sum = 3 :=
  ⟨by decide,
   (summary_status_counts c2WitnessDf false c2WitnessRows 0 1
      (by decide) (by decide) (by decide)).2.1,
   (summary_status_counts c2WitnessDf false c2WitnessRows 0 1
      (by decide) (by decide) (by decide)).2.2,
   by decide, by decide⟩

/-! ## Claims C5, C6, C7 -/

/-- A concrete table with the two location columns, used to instantiate
the filtering theorems. -/
def vmDf : Df :=
  ⟨["ID", "CCF Soma Compartment", "Manual Estimated Soma Compartment",
    "Status 1"],
   [[Value.str "N1-1", Value.str "VMH", Value.null, Value.str "Completed"],
    [Value.str "N2-2", Value.str "LC", Value.null, Value.str "Hold"]]⟩

/-- Claim C5, confirmed: when the location token case-insensitively equals
"all" and the HIVE flag is false, the filtering stage returns the source
table itself — same rows, same order — regardless of any column
contents. -/
theorem filter_all_passthrough (df : Df) (loc : String)
    (hall : String.mk (lowerChars loc.data) = "all") :
    applySomaLocationFilter df loc false = Except.ok ⟨df, false⟩ := by
  simp [applySomaLocationFilter, locationStage, hall]

/-- Witness for C5: the token "All" passes a concrete table through
unchanged. -/
theorem filter_all_passthrough_witness :
    String.mk (lowerChars "All".data) = "all"
    ∧ applySomaLocationFilter vmDf "All" false = Except.ok ⟨vmDf, false⟩ :=
  ⟨by decide, filter_all_passthrough vmDf "All" (by decide)⟩

/-- Claim C6, confirmed: for a location token not case-insensitively equal
to "all", applying the soma-location filter to its own output returns that
output unchanged — the filter is idempotent. -/
theorem filter_idempotent (df : Df) (loc : String) (fr : FilterResult)
    (hne : String.mk (lowerChars loc.data) ≠ "all")
    (hok : applySomaLocationFilter df loc false = Except.ok fr) :
    applySomaLocationFilter fr.table loc false = Except.ok fr := by
  unfold applySomaLocationFilter at hok ⊢
  cases hl : locationStage df loc with
  | error e => rw [hl] at hok; cases hok
  | ok fdf =>
    rw [hl] at hok
    simp only [if_neg, Bool.false_eq_true, if_false, Except.ok.injEq] at hok
    subst hok
    unfold locationStage at hl ⊢
    rw [if_neg hne] at hl ⊢
    cases hi : colIdx? df "CCF Soma Compartment" with
    | none => rw [hi] at hl; cases hl
    | some i =>
      rw [hi] at hl
      cases hj : colIdx? df "Manual Estimated Soma Compartment" with
      | none => rw [hj] at hl; cases hl
      | some j =>
        rw [hj] at hl
        rw [Except.ok.injEq] at hl
        subst hl
        have hci : colIdx? ⟨df.cols, df.rows.filter (locRowKeep i j loc)⟩
            "CCF Soma Compartment" = some i := hi
        have hcj : colIdx? ⟨df.cols, df.rows.filter (locRowKeep i j loc)⟩
            "Manual Estimated Soma Compartment" = some j := hj
        rw [hci, hcj]
        simp [List.filter_filter]

/-- Witness for C6: filtering `vmDf` by "VM" keeps one row, and filtering
that result again returns it unchanged. -/
theorem filter_idempotent_witness :
    String.mk (lowerChars "VM".data) ≠ "all"
    ∧ applySomaLocationFilter vmDf "VM" false = Except.ok
        ⟨⟨vmDf.cols, [[Value.str "N1-1", Value.str "VMH", Value.null,
          Value.str "Completed"]]⟩, false⟩
    ∧ applySomaLocationFilter
        (⟨vmDf.cols, [[Value.str "N1-1", Value.str "VMH", Value.null,
          Value.str "Completed"]]⟩ : Df) "VM" false = Except.ok
        ⟨⟨vmDf.cols, [[Value.str "N1-1", Value.str "VMH", Value.null,
          Value.str "Completed"]]⟩, false⟩ :=
  ⟨by decide, by decide,
   filter_idempotent vmDf "VM"
     ⟨⟨vmDf.cols, [[Value.str "N1-1", Value.str "VMH", Value.null,
       Value.str "Completed"]]⟩, false⟩ (by decide) (by decide)⟩

/-- Claim C7, confirmed: whenever the filtering stage yields an empty
table, `analyze_soma_location` returns the explicit no-data triple — empty
summary, no CSV path, no plot path — for every combination of the save-CSV,
create-plot and HIVE flags (the embedding returns this triple before the
summarization, CSV and plotting steps, so none of them is attempted). -/
theorem analyze_no_data (df : Df) (loc : String) (sc cp hive : Bool)
    (fr : FilterResult)
    (hok : applySomaLocationFilter df loc hive = Except.ok fr)
    (hemp : fr.table.isEmpty = true) :
    analyzeSomaLocation df loc sc cp hive = Except.ok ⟨[], none, none⟩ := by
  unfold analyzeSomaLocation
  rw [hok]
  simp [hemp]

/-- Witness for C7: the token "zz" matches nothing in `vmDf` and the
analysis returns the no-data triple. -/
theorem analyze_no_data_witness :
    applySomaLocationFilter vmDf "zz" true = Except.ok ⟨⟨[], []⟩, true⟩
    ∧ analyzeSomaLocation vmDf "zz" true true true
        = Except.ok ⟨[], none, none⟩ :=
  ⟨by decide,
   analyze_no_data vmDf "zz" true true true ⟨⟨[], []⟩, true⟩
     (by decide) (by decide)⟩

/-! ## Claim C3 -/

/-- Claim C3, amended.  For every table whose column names contain no
"hive" substring (case-insensitive) and whose cells contain no value
comparing equal to Python `True` — a boolean `True` or the number 1 — the
HIVE-flagged filtering stage fails closed whenever its location phase
succeeds: it returns the completely empty frame together with the
error-level HIVE-column-not-found signal, and the whole analysis then
returns the empty no-data triple. -/
theorem hive_fails_closed (df : Df) (loc : String)
    (h1 : ∀ c ∈ df.cols, hiveName c = false)
    (h2 : ∀ r ∈ df.rows, ∀ v ∈ r, pyIsTrue v = false)
    (fdf : Df) (hloc : locationStage df loc = Except.ok fdf) :
    applySomaLocationFilter df loc true = Except.ok ⟨Df.empty, true⟩
    ∧ ∀ sc cp : Bool,
        analyzeSomaLocation df loc sc cp true = Except.ok ⟨[], none, none⟩ := by
  have hfind : findHiveIdx? df = none := by
    unfold findHiveIdx?
    have hname : (List.range df.cols.length).find?
        (fun i => hiveName (df.cols.getD i "")) = none := by
      rw [List.find?_eq_none]
      intro i hi
      have hlt : i < df.cols.length := List.mem_range.mp hi
      rw [List.getD_eq_getElem df.cols "" hlt, h1 _ (List.getElem_mem hlt)]
      simp
    rw [hname, List.find?_eq_none]
    intro i _
    simp only [List.any_eq_true, not_exists, not_and]
    intro r hr
    rcases Nat.lt_or_ge i r.length with hlt | hge
    · rw [cell, List.getD_eq_getElem r Value.null hlt,
        h2 r hr _ (List.getElem_mem hlt)]
      simp
    · rw [cell, List.getD_eq_default r Value.null hge]
      simp [pyIsTrue]
  have hfilter : applySomaLocationFilter df loc true
      = Except.ok ⟨Df.empty, true⟩ := by
    unfold applySomaLocationFilter
    rw [hloc, hfind]
    rfl
  refine ⟨hfilter, fun sc cp => ?_⟩
  unfold analyzeSomaLocation
  rw [hfilter]
  simp [Df.isEmpty, Df.empty]

/-- The table refuting claim C3 as stated: no column name contains "hive"
and no cell holds a boolean true, yet a cell holds the number 1. -/
def c3Df : Df := ⟨["ID", "Flag"], [[Value.str "x", Value.int 1]]⟩

/-- Claim C3 as stated is false: `c3Df` has no "hive"-named column and no
boolean-true value, yet the HIVE-flagged filter does not return an empty
table and raises no not-found signal — pandas treats the number 1 as equal
to `True`, so the `Flag` column is selected as the HIVE column and its row
passes the filter. -/
theorem hive_fails_closed_counterexample :
    (∀ c ∈ c3Df.cols, hiveName c = false)
    ∧ (∀ r ∈ c3Df.rows, ∀ v ∈ r, v ≠ Value.bool true)
    ∧ applySomaLocationFilter c3Df "all" true = Except.ok ⟨c3Df, false⟩
    ∧ c3Df.rows ≠ [] := by
  refine ⟨by decide, by decide, by decide, by decide⟩

/-- A table with no HIVE column and no value comparing equal to `True`. -/
def c3WitnessDf : Df := ⟨["ID", "Flag"], [[Value.str "x", Value.bool false]]⟩

/-- Witness for the amended C3: a concrete table with no HIVE-like column
fails closed under the HIVE flag and its analysis returns no data. -/
theorem hive_fails_closed_witness :
    applySomaLocationFilter c3WitnessDf "all" true
      = Except.ok ⟨Df.empty, true⟩
    ∧ analyzeSomaLocation c3WitnessDf "all" true true true
      = Except.ok ⟨[], none, none⟩ :=
  ⟨(hive_fails_closed c3WitnessDf "all" (by decide) (by decide) c3WitnessDf
      (by decide)).1,
   (hive_fails_closed c3WitnessDf "all" (by decide) (by decide) c3WitnessDf
      (by decide)).2 true true⟩

/-! ## Claim C10 -/

/-- Claim C10, amended.  Constructing the analyzer raises `ValueError`
("Input DataFrame cannot be empty") exactly when the input table is empty
in the pandas sense — zero rows or zero columns; in particular an
entirely row-less source table is rejected at construction, while an empty
query result inside an analysis is reported as the non-error no-data
triple. -/
theorem init_rejects_empty (df : Df) :
    somaAnalyzerInit df = Except.error "Input DataFrame cannot be empty"
      ↔ df.rows = [] ∨ df.cols = [] := by
  by_cases h : df.rows = [] ∨ df.cols = []
  · have hb : df.isEmpty = true := by
      rcases h with h | h <;> simp [Df.isEmpty, h]
    simp [somaAnalyzerInit, hb, h]
  · rcases not_or.mp h with ⟨h1, h2⟩
    have hb : df.isEmpty = false := by
      simp [Df.isEmpty, List.isEmpty_eq_false.mpr h1,
        List.isEmpty_eq_false.mpr h2]
    simp [somaAnalyzerInit, hb, h]

/-- Claim C10 as stated ("raises exactly when the table has zero rows") is
false: a frame with one row but zero columns is `empty` to pandas, so the
constructor rejects it although its row count is 1. -/
theorem init_rejects_empty_counterexample :
    (Df.mk [] [[]]).rows.length = 1
    ∧ somaAnalyzerInit ⟨[], [[]]⟩
        = Except.error "Input DataFrame cannot be empty" := by
  refine ⟨by decide, by decide⟩

/-! ## Claim C4 -/

theorem matchAt_iff (p : List Char) :
    ∀ h : List Char, matchAt h p = true ↔ h.take p.length = p := by
  induction p with
  | nil => intro h; simp [matchAt]
  | cons q ps ih =>
    intro h
    cases h with
    | nil => simp [matchAt]
    | cons a t =>
      simp [matchAt, List.cons.injEq, ih t]

theorem subChars_iff (p : List Char) :
    ∀ h : List Char, subChars h p = true ↔
      ∃ i, i ≤ h.length ∧ (h.drop i).take p.length = p := by
  intro h
  induction h with
  | nil =>
    rw [show subChars [] p = matchAt [] p from rfl, matchAt_iff]
    constructor
    · intro h0; exact ⟨0, Nat.le_refl 0, h0⟩
    · rintro ⟨i, _, hdrop⟩
      rw [List.drop_nil] at hdrop
      exact hdrop
  | cons a t ih =>
    rw [show subChars (a :: t) p = (matchAt (a :: t) p || subChars t p)
      from rfl, Bool.or_eq_true, matchAt_iff, ih]
    constructor
    · rintro (h0 | ⟨i, hi, hd⟩)
      · exact ⟨0, Nat.zero_le _, h0⟩
      · exact ⟨i + 1, Nat.succ_le_succ hi, by simpa using hd⟩
    · rintro ⟨i, hi, hd⟩
      cases i with
      | zero => exact Or.inl (by simpa using hd)
      | succ i => exact Or.inr ⟨i, Nat.le_of_succ_le_succ hi, by simpa using hd⟩

/-- The substring scan agrees with the index-based characterization used by
the spec-side containment predicate. -/
theorem subChars_eq_any (h p : List Char) :
    subChars h p = (List.range (h.length + 1)).any
      (fun i => (h.drop i).take p.length = p) := by
  by_cases hsc : subChars h p = true
  · obtain ⟨i, hi, hd⟩ := (subChars_iff p h).mp hsc
    rw [hsc]
    symm
    rw [List.any_eq_true]
    exact ⟨i, List.mem_range.mpr (Nat.lt_succ_of_le hi), by simp [hd]⟩
  · have hf : subChars h p = false := Bool.eq_false_iff.mpr hsc
    rw [hf]
    symm
    cases hany : (List.range (h.length + 1)).any
        (fun i => decide ((h.drop i).take p.length = p)) with
    | false => rfl
    | true =>
      obtain ⟨i, hmem, hp⟩ := List.any_eq_true.mp hany
      exact absurd ((subChars_iff p h).mpr
        ⟨i, Nat.lt_succ_iff.mp (List.mem_range.mp hmem),
          of_decide_eq_true hp⟩) hsc

/-- Spec-side formulation of case-insensitive substring containment:
some split position of the lowercased haystack starts with the lowercased
pattern. -/
def specContainsCI (hay pat : String) : Bool :=
  (List.range ((lowerChars hay.data).length + 1)).any
    (fun i => ((lowerChars hay.data).drop i).take (lowerChars pat.data).length
      = lowerChars pat.data)

theorem strContainsCI_eq_spec (hay pat : String) :
    strContainsCI hay pat = specContainsCI hay pat :=
  subChars_eq_any (lowerChars hay.data) (lowerChars pat.data)

/-- The amended C4 row predicate, following the words of the claim with the one
forced change: each of the two designated location columns is rendered as a
string — a null cell rendering as the string "nan" — and the row is kept
when either rendering contains the token case-insensitively. -/
def specKeepRow (df : Df) (loc : String) (r : List Value) : Bool :=
  (match colIdx? df "CCF Soma Compartment" with
   | some k => specContainsCI (pyStr (cell r k)) loc
   | none => false) ||
  (match colIdx? df "Manual Estimated Soma Compartment" with
   | some k => specContainsCI (pyStr (cell r k)) loc
   | none => false)

/-- Claim C4, amended.  For every table and location token not
case-insensitively equal to "all", the HIVE-less filtering stage keeps
exactly the rows in which at least one of `CCF Soma Compartment` and
`Manual Estimated Soma Compartment`, rendered as a string — with a null
cell rendering as the string "nan" — contains the token as a
case-insensitive substring. -/
theorem location_filter_matches (df : Df) (loc : String) (fr : FilterResult)
    (hne : String.mk (lowerChars loc.data) ≠ "all")
    (hok : applySomaLocationFilter df loc false = Except.ok fr) :
    fr.hiveNotFound = false
    ∧ fr.table.cols = df.cols
    ∧ fr.table.rows = df.rows.filter (specKeepRow df loc) := by
  unfold applySomaLocationFilter at hok
  cases hl : locationStage df loc with
  | error e => rw [hl] at hok; cases hok
  | ok fdf =>
    rw [hl] at hok
    simp only [Bool.false_eq_true, if_false, Except.ok.injEq] at hok
    subst hok
    unfold locationStage at hl
    rw [if_neg hne] at hl
    cases hi : colIdx? df "CCF Soma Compartment" with
    | none => rw [hi] at hl; cases hl
    | some i =>
      rw [hi] at hl
      cases hj : colIdx? df "Manual Estimated Soma Compartment" with
      | none => rw [hj] at hl; cases hl
      | some j =>
        rw [hj, Except.ok.injEq] at hl
        subst hl
        refine ⟨rfl, rfl, ?_⟩
        apply List.filter_congr
        intro r _
        rw [locRowKeep, specKeepRow, hi, hj, strContainsCI_eq_spec,
          strContainsCI_eq_spec]

/-- The table refuting claim C4 as stated: both location columns null. -/
def c4Df : Df :=
  ⟨["CCF Soma Compartment", "Manual Estimated Soma Compartment"],
   [[Value.null, Value.null]]⟩

/-- The row predicate claim C4 states: a null cell never matches, the
others are rendered as strings and tested for case-insensitive
containment. -/
def claimKeepRowC4 (df : Df) (loc : String) (r : List Value) : Bool :=
  (match colIdx? df "CCF Soma Compartment" with
   | some k =>
     match cell r k with
     | Value.null => false
     | v => strContainsCI (pyStr v) loc
   | none => false) ||
  (match colIdx? df "Manual Estimated Soma Compartment" with
   | some k =>
     match cell r k with
     | Value.null => false
     | v => strContainsCI (pyStr v) loc
   | none => false)

/-- Claim C4 as stated is false: filtering `c4Df` by the token "an" keeps
its all-null row — `.astype(str)` renders null as "nan", which contains
"an" — although the predicate of the claim (null never matches) keeps no row. -/
theorem location_filter_matches_counterexample :
    applySomaLocationFilter c4Df "an" false = Except.ok ⟨c4Df, false⟩
    ∧ c4Df.rows.filter (claimKeepRowC4 c4Df "an") = []
    ∧ c4Df.rows ≠ [] := by
  refine ⟨by decide, by decide, by decide⟩

/-- Witness for the amended C4: filtering `vmDf` by "VM" keeps exactly the
rows selected by the spec-side predicate. -/
theorem location_filter_matches_witness :
    String.mk (lowerChars "VM".data) ≠ "all"
    ∧ applySomaLocationFilter vmDf "VM" false = Except.ok
        ⟨⟨vmDf.cols, [[Value.str "N1-1", Value.str "VMH", Value.null,
          Value.str "Completed"]]⟩, false⟩
    ∧ (⟨⟨vmDf.cols, [[Value.str "N1-1", Value.str "VMH", Value.null,
          Value.str "Completed"]]⟩, false⟩ : FilterResult).table.rows
        = vmDf.rows.filter (specKeepRow vmDf "VM") :=
  ⟨by decide, by decide,
   (location_filter_matches vmDf "VM"
     ⟨⟨vmDf.cols, [[Value.str "N1-1", Value.str "VMH", Value.null,
       Value.str "Completed"]]⟩, false⟩ (by decide) (by decide)).2.2⟩

/-! ## Claim C1 -/

/-- Position of the first `-` immediately followed by a digit (spec-side
index formulation). -/
def specFirstDashIdx (cs : List Char) : Option Nat :=
  (List.range cs.length).find?
    (fun i => decide (cs.getD i ' ' = '-') && (cs.getD (i + 1) ' ').isDigit)

/-- Position of the first digit (spec-side index formulation). -/
def specFirstDigitIdx (cs : List Char) : Option Nat :=
  (List.range cs.length).find? (fun i => (cs.getD i ' ').isDigit)

/-- The amended C1 extraction rule, stated positionally: the digit run
after the first dash-followed-by-digit, else the first digit run, else the
whitespace-trimmed string. -/
def specExtract (s : String) : String :=
  match specFirstDashIdx s.data with
  | some i => String.mk ((s.data.drop (i + 1)).takeWhile Char.isDigit)
  | none =>
    match specFirstDigitIdx s.data with
    | some i => String.mk ((s.data.drop i).takeWhile Char.isDigit)
    | none => String.mk (trimChars s.data)

/-- Position of the last `-` immediately followed by a digit. -/
def specLastDashIdx (cs : List Char) : Option Nat :=
  (List.range cs.length).reverse.find?
    (fun i => decide (cs.getD i ' ' = '-') && (cs.getD (i + 1) ' ').isDigit)

/-- The extraction rule exactly as claim C1 states it: the digits
following the LAST dash, with the same fallbacks. -/
def specLastDashExtract (s : String) : String :=
  match specLastDashIdx s.data with
  | some i => String.mk ((s.data.drop (i + 1)).takeWhile Char.isDigit)
  | none =>
    match specFirstDigitIdx s.data with
    | some i => String.mk ((s.data.drop i).takeWhile Char.isDigit)
    | none => String.mk (trimChars s.data)

theorem range_find?_cons (p : Nat → Bool) (n : Nat) :
    (List.range (n + 1)).find? p =
      if p 0 then some 0
      else ((List.range n).find? (fun i => p (i + 1))).map (fun i => i + 1) := by
  rw [List.range_succ_eq_map, List.find?_cons]
  cases hp : p 0 with
  | true => simp
  | false =>
    simp only [Bool.false_eq_true, if_false]
    rw [List.find?_map]
    rfl

theorem digitRunAfterDash_eq_spec : ∀ cs : List Char,
    digitRunAfterDash cs = (specFirstDashIdx cs).map
      (fun i => (cs.drop (i + 1)).takeWhile Char.isDigit) := by
  intro cs
  induction cs with
  | nil => rfl
  | cons c rest ih =>
    have hlead : (rest.getD 0 ' ').isDigit = leadDigit rest := by
      cases rest <;> rfl
    simp only [digitRunAfterDash, specFirstDashIdx, List.length_cons,
      range_find?_cons, List.getD_cons_zero, List.getD_cons_succ,
      Nat.zero_add, hlead]
    by_cases hcd : (decide (c = '-') && leadDigit rest) = true
    · simp [hcd]
    · simp only [hcd, Bool.false_eq_true, if_false, ih, specFirstDashIdx,
        Option.map_map]
      rfl

theorem firstDigitRun_eq_spec : ∀ cs : List Char,
    firstDigitRun cs = (specFirstDigitIdx cs).map
      (fun i => (cs.drop i).takeWhile Char.isDigit) := by
  intro cs
  induction cs with
  | nil => rfl
  | cons c rest ih =>
    simp only [firstDigitRun, specFirstDigitIdx, List.length_cons,
      range_find?_cons, List.getD_cons_zero, List.getD_cons_succ]
    by_cases hcd : c.isDigit = true
    · simp [hcd, List.takeWhile_cons]
    · simp only [hcd, Bool.false_eq_true, if_false, ih, specFirstDigitIdx,
        Option.map_map]
      rfl

/-- The coded scan agrees with the positional spec formulation. -/
theorem extractFromString_eq_spec (s : String) :
    extractFromString s = specExtract s := by
  rw [extractFromString, specExtract, digitRunAfterDash_eq_spec,
    firstDigitRun_eq_spec]
  cases specFirstDashIdx s.data with
  | some i => rfl
  | none =>
    cases specFirstDigitIdx s.data with
    | some i => rfl
    | none => rfl

/-- Claim C1, amended.  For every string value of the ID column, sample-ID
extraction returns the digits following the FIRST `-` that is immediately
followed by a digit (not the last); if no dash-digit pattern exists, the
first run of digits; and if the value contains no digits, the value with
surrounding whitespace trimmed.  The three examples of the claim hold
unchanged. -/
theorem extract_sample_id_spec :
    (∀ s : String, extractSampleId (Value.str s) = some (specExtract s))
    ∧ extractSampleId (Value.str "N030-657676") = some "657676"
    ∧ extractSampleId (Value.str "ABC123") = some "123"
    ∧ extractSampleId (Value.str "no-digits-here") = some "no-digits-here" :=
  ⟨fun s => congrArg some (extractFromString_eq_spec s),
   by decide, by decide, by decide⟩

/-- Claim C1 as stated is false on IDs with two dash-digit groups: for
"a-1-2" the code extracts "1" (digits after the first dash), while the
last-dash rule of the claim yields "2". -/
theorem extract_sample_id_counterexample :
    extractSampleId (Value.str "a-1-2") = some "1"
    ∧ specLastDashExtract "a-1-2" = "2"
    ∧ extractSampleId (Value.str "a-1-2")
        ≠ some (specLastDashExtract "a-1-2") := by
  refine ⟨by decide, by decide, by decide⟩

/-! ## Claim C8 -/

/-- Claim C8, confirmed.  Whenever an analysis run with CSV saving and
plotting enabled returns more summary rows than the display cap (default
50), the rendered stacked-bar chart contains exactly the first cap-many
samples in summarization order together with the truncation warning, while
the returned summary table and the saved CSV hold all samples
untruncated. -/
theorem plot_truncation (df : Df) (loc : String) (hive : Bool)
    (ar : AnalyzeResult)
    (hok : analyzeSomaLocation df loc true true hive = Except.ok ar)
    (hlen : MAX_SAMPLES_TO_DISPLAY < ar.summary.length) :
    ar.plot = some ⟨(ar.summary.take MAX_SAMPLES_TO_DISPLAY).map
        (fun w => w.sample_id), true⟩
    ∧ ar.csv = some ar.summary := by
  unfold analyzeSomaLocation at hok
  cases hf : applySomaLocationFilter df loc hive with
  | error e => rw [hf] at hok; cases hok
  | ok fr =>
    rw [hf] at hok
    dsimp only at hok
    by_cases hemp : fr.table.isEmpty = true
    · rw [if_pos hemp, Except.ok.injEq] at hok
      subst hok
      simp [MAX_SAMPLES_TO_DISPLAY] at hlen
    · rw [if_neg hemp] at hok
      cases hs : summarize fr.table hive with
      | error e => rw [hs] at hok; cases hok
      | ok summary =>
        rw [hs, Except.ok.injEq] at hok
        subst hok
        have hl2 : MAX_SAMPLES_TO_DISPLAY < summary.length := by
          simpa using hlen
        have hne : summary.isEmpty = false := by
          rw [List.isEmpty_eq_false]
          intro h0
          rw [h0] at hl2
          simp [MAX_SAMPLES_TO_DISPLAY] at hl2
        constructor
        · simp [hne, stackedBarPlot, hl2]
        · simp [hne]

/-- 51 rows with 51 distinct sample ids, one more than the display cap. -/
def capDf : Df := ⟨["ID", "Status 1"],
  (List.range 51).map (fun n =>
    [Value.str ("N-" ++ toString n), Value.str "Completed"])⟩

/-- The analysis result for `capDf` (all 51 samples). -/
def capResult : AnalyzeResult :=
  match analyzeSomaLocation capDf "all" true true false with
  | Except.ok a => a
  | Except.error _ => ⟨[], none, none⟩

/-- Witness for C8: 51 samples against the default cap of 50 — the chart
truncates to the first 50 with the warning, the summary and CSV keep all
51. -/
theorem plot_truncation_witness :
    analyzeSomaLocation capDf "all" true true false = Except.ok capResult
    ∧ capResult.summary.length = 51
    ∧ capResult.plot = some ⟨(capResult.summary.take MAX_SAMPLES_TO_DISPLAY).map
        (fun w => w.sample_id), true⟩
    ∧ capResult.csv = some capResult.summary := by
  have hok : analyzeSomaLocation capDf "all" true true false
      = Except.ok capResult := rfl
  have hlen : MAX_SAMPLES_TO_DISPLAY < capResult.summary.length := by decide
  exact ⟨hok, by decide,
    (plot_truncation capDf "all" false capResult hok hlen).1,
    (plot_truncation capDf "all" false capResult hok hlen).2⟩

/-! ## Claim C9 -/

/-- Claim C9, confirmed.  If analyzing one location in the list raises an
exception, the comparison still contains the aggregate row of every other
location whose analysis succeeds with a non-empty summary, and no row of
the comparison belongs to the failing location — the failure is isolated
and the sibling locations are not aborted. -/
theorem compare_isolates_failures (df : Df) (locs : List String)
    (L : String) (e : String) (hmem : L ∈ locs)
    (herr : analyzeSomaLocation df L false false false = Except.error e) :
    (∀ L2 ∈ locs, ∀ res,
       analyzeSomaLocation df L2 false false false = Except.ok res →
       res.summary.isEmpty = false →
       aggRow L2 res.summary ∈ compareSomaLocations df locs)
    ∧ ∀ row ∈ compareSomaLocations df locs, row.soma_location ≠ L := by
  constructor
  · intro L2 hL2 res hres hne
    rw [compareSomaLocations, List.mem_filterMap]
    exact ⟨L2, hL2, by simp [hres, hne]⟩
  · intro row hrow
    rw [compareSomaLocations, List.mem_filterMap] at hrow
    obtain ⟨L3, _, hf⟩ := hrow
    by_cases hEq : L3 = L
    · subst hEq
      rw [herr] at hf
      simp at hf
    · cases ha : analyzeSomaLocation df L3 false false false with
      | error _ => rw [ha] at hf; simp at hf
      | ok res =>
        rw [ha] at hf
        by_cases hemp : res.summary.isEmpty = true
        · simp [hemp] at hf
        · simp only [hemp, Bool.false_eq_true, if_false, Option.some.injEq]
            at hf
          subst hf
          simpa [aggRow] using hEq

/-- A table lacking the compartment columns: any location other than "all"
raises a `KeyError`, while "all" succeeds. -/
def noCcfDf : Df :=
  ⟨["ID", "Status 1"], [[Value.str "N1-7", Value.str "Completed"]]⟩

/-- The summary of the one successful location of `noCcfDf`. -/
def noCcfSummary : List SummaryRow :=
  [⟨"7", Value.str "Unknown", 1, 0, 0, 0, 0, 0, 0,
    Value.str "Unknown", 1, "No"⟩]

/-- Witness for C9: comparing ["VM", "all"] on a table without the
compartment columns — "VM" raises a `KeyError`, yet the comparison still
carries the aggregate row for "all" and no row for "VM". -/
theorem compare_isolates_failures_witness :
    analyzeSomaLocation noCcfDf "VM" false false false
      = Except.error "KeyError: CCF Soma Compartment"
    ∧ analyzeSomaLocation noCcfDf "all" false false false
      = Except.ok ⟨noCcfSummary, none, none⟩
    ∧ aggRow "all" noCcfSummary ∈ compareSomaLocations noCcfDf ["VM", "all"]
    ∧ ∀ row ∈ compareSomaLocations noCcfDf ["VM", "all"],
        row.soma_location ≠ "VM" := by
  have h := compare_isolates_failures noCcfDf ["VM", "all"] "VM"
    "KeyError: CCF Soma Compartment" (by decide) (by decide)
  exact ⟨by decide, by decide,
    h.1 "all" (by decide) ⟨noCcfSummary, none, none⟩ (by decide) (by decide),
    h.2⟩

end Soma
